import Mathlib

/-!
Shallow embedding of the DHCPv4 hook callouts of this repository
(src/crates/dhcp/src/kea/callouts.h and callouts.cc).

The packet/option container operations (getOption, delOption, addOption)
follow the semantics of the Kea host library the code is written against:
`Pkt4::addOption` rejects an option whose code is already present (the hook
code therefore always deletes before adding), `Pkt::delOption` removes the
first option with the given code, and `Pkt::getOption` returns the first
option with the given code.  Suboption containers (`Option::addOption`)
append without a uniqueness check.  Machine-record accessors and the
discovery-builder FFI functions live in the Rust part of the repository,
which is not among the source files; they are modelled from the spec.
-/

namespace Carbide

/-! ## Option codes (standard DHCPv4 codes used by callouts.cc, and callouts.h line 28) -/

def DHO_SUBNET_MASK : Nat := 1
def DHO_ROUTERS : Nat := 3
def DHO_NAME_SERVERS : Nat := 5
def DHO_DOMAIN_NAME_SERVERS : Nat := 6
def DHO_HOST_NAME : Nat := 12
def DHO_INTERFACE_MTU : Nat := 26
def DHO_BROADCAST_ADDRESS : Nat := 28
def DHO_NTP_SERVERS : Nat := 42
def DHO_VENDOR_ENCAPSULATED_OPTIONS : Nat := 43
def DHO_DHCP_REQUESTED_ADDRESS : Nat := 50
def DHO_VENDOR_CLASS_IDENTIFIER : Nat := 60
def DHO_BOOT_FILE_NAME : Nat := 67
def DHO_DHCP_AGENT_OPTIONS : Nat := 82
def DHO_SYSTEM : Nat := 93
def DHO_MQTT_SERVER : Nat := 224
def RAI_OPTION_AGENT_CIRCUIT_ID : Nat := 1
def RAI_OPTION_REMOTE_ID : Nat := 2
def RAI_OPTION_LINK_SELECTION : Nat := 5

/-! ## IPv4 address text parsing

`isc::asiolink::IOAddress(std::string)` parses a textual address and throws
on failure; `Option4AddrLst` then requires V4 addresses.  We model the
combination as a strict dotted-quad parser to `Nat` (the 32-bit address
value); any non-dotted-quad input (including the IPv6 forms IOAddress would
accept but Option4AddrLst would reject) is a failure. -/

/-- Split a character list at every occurrence of `sep` (the semantics of
`String.splitOn` with a one-character separator). -/
def splitOnChar (sep : Char) : List Char → List (List Char)
  | [] => [[]]
  | c :: rest =>
    if c = sep then [] :: splitOnChar sep rest
    else
      match splitOnChar sep rest with
      | t :: ts => (c :: t) :: ts
      | [] => [[c]]

def parseDecByte (s : String) : Option Nat :=
  let cs := s.toList
  if cs ≠ [] ∧ cs.length ≤ 3 ∧ cs.all Char.isDigit then
    let v := cs.foldl (fun a c => a * 10 + (c.toNat - 48)) 0
    if v ≤ 255 then some v else none
  else none

def parseIPv4 (s : String) : Option Nat :=
  match (splitOnChar '.' s.toList).map String.mk with
  | [a, b, c, d] =>
    match parseDecByte a, parseDecByte b, parseDecByte c, parseDecByte d with
    | some a, some b, some c, some d => some (((a * 256 + b) * 256 + c) * 256 + d)
    | _, _, _, _ => none
  | _ => none

def parseIPv4E (s : String) : Except String Nat :=
  match parseIPv4 s with
  | some v => Except.ok v
  | none => Except.error "IOAddress: failed to parse address"

/-- Decimal rendering of a byte value (0-255). -/
def byteToString (n : Nat) : String :=
  if n < 10 then String.mk [Char.ofNat (48 + n)]
  else if n < 100 then String.mk [Char.ofNat (48 + n / 10), Char.ofNat (48 + n % 10)]
  else String.mk [Char.ofNat (48 + n / 100), Char.ofNat (48 + n / 10 % 10),
    Char.ofNat (48 + n % 10)]

/-- Model of `IOAddress(uint32).toText()` for a V4 address: dotted-quad text. -/
def ipToText (n : Nat) : String :=
  byteToString (n / 16777216 % 256) ++ "." ++ byteToString (n / 65536 % 256) ++ "." ++
    byteToString (n / 256 % 256) ++ "." ++ byteToString (n % 256)

/-- Tokens produced by the `std::getline(ss, s, ',')` loop in `getAddresses`
(callouts.cc lines 46-57): splitting on commas, except that a trailing
delimiter or an empty input yields no final empty token. -/
def getlineTokens (s : String) : List String :=
  let parts := (splitOnChar ',' s.toList).map String.mk
  if s.toList = [] then []
  else if s.toList.getLast? = some ',' then parts.dropLast
  else parts

/-- Model of `getAddresses` (callouts.cc lines 46-57): parse a comma-separated list of
addresses; a parse failure of any element is the `IOAddress` constructor
throwing, which the caller observes as an exception. -/
def getAddressesE (ips : String) : Except String (List Nat) :=
  (getlineTokens ips).mapM parseIPv4E

/-- Big-endian read of a 4-byte buffer, as done by
`IOAddress::fromBytes(AF_INET, buf).toUint32()` (callouts.cc lines 131-134)
and by the `memcpy`/`htonl` pair (lines 395-397). -/
def addrOfBytes (l : List Nat) : Nat :=
  match l with
  | [a, b, c, d] => ((a * 256 + b) * 256 + c) * 256 + d
  | _ => 0

/-- Model of `std::string(buf.begin(), buf.end())`: bytes to text. -/
def bytesToString (l : List Nat) : String :=
  String.mk (l.map Char.ofNat)

/-! ## Machine record

Modelled from the spec: the `Machine` record is produced by the external
resolution service (the Rust side, not among the source files); the
`machine_get_*` accessors used by callouts.cc are modelled as projections.
`filename` and `mqtt_server` may be absent (the accessors return null). -/

structure Machine where
  interface_address : String
  interface_subnet_mask : Nat
  broadcast_address : Nat
  interface_router : String
  next_server : String
  interface_hostname : String
  filename : Option String
  client_type : String
  nameservers : String
  ntpservers : String
  mqtt_server : Option String
  interface_mtu : Nat
  uuid : String
deriving DecidableEq, Repr

/-! ## Response packet option model -/

/-- A suboption value inside the vendor-encapsulated option. -/
inductive SubVal where
  | u32 (v : Nat)
  | str (s : String)
deriving DecidableEq, Repr

/-- The value shapes written into the response packet by the callouts:
`OptionInt<uint32_t>`, `OptionInt<uint16_t>`, `OptionString`,
`Option4AddrLst`, and a generic `Option` holding suboptions. -/
inductive OptVal where
  | u32 (v : Nat)
  | u16 (v : Nat)
  | str (s : String)
  | addrList (l : List Nat)
  | vendor (subs : List (Nat × SubVal))
deriving DecidableEq, Repr

structure Opt where
  code : Nat
  val : OptVal
deriving DecidableEq, Repr

structure Pkt where
  yiaddr : Nat := 0
  siaddr : Nat := 0
  options : List Opt := []
deriving DecidableEq, Repr

/-- Model of `Pkt::getOption`: first option with the given code. -/
def Pkt.getOption (p : Pkt) (c : Nat) : Option Opt :=
  p.options.find? (fun o => o.code == c)

/-- Model of `Pkt::delOption`: remove the first option with the given code. -/
def Pkt.delOption (p : Pkt) (c : Nat) : Pkt :=
  { p with options := p.options.eraseP (fun o => o.code == c) }

/-- Model of `Pkt4::addOption`: Kea rejects adding an option whose code is already
present in the packet (throws BadValue); otherwise the option is appended. -/
def pkt4AddOption (p : Pkt) (o : Opt) : Except String Pkt :=
  match p.getOption o.code with
  | some _ => Except.error "Option already present in this message"
  | none => Except.ok { p with options := p.options ++ [o] }

/-- Model of `OptionString` construction: Kea rejects an empty value (OutOfRange). -/
def mkOptionStringE (s : String) : Except String OptVal :=
  if s = "" then Except.error "OptionString: value empty" else Except.ok (OptVal.str s)

/-- The `boost::any` parameter passed to `update_option`: a machine pointer,
a string (`std::string` or `char *`), or a `uint16_t`. -/
inductive Param where
  | machine (m : Machine)
  | str (s : String)
  | u16p (v : Nat)
deriving DecidableEq, Repr

/-- Model of `get_and_delete_option` as used by the `CDHCPOptionsManager` constructor
(callouts.h lines 30-38, 51-54): if the option is present it is removed
from the response. -/
def ctorDelete (resp : Pkt) (c : Nat) : Pkt :=
  match resp.getOption c with
  | some _ => resp.delOption c
  | none => resp

/-- Model of `response4_ptr->addOption(o)` with the exception caught by the caller:
on success the new packet and `false`; on failure the packet is unchanged
and the exception flag is `true`. -/
def addOrThrow (resp : Pkt) (o : Opt) : Pkt × Bool :=
  match pkt4AddOption resp o with
  | Except.ok r => (r, false)
  | Except.error _ => (resp, true)

/-- Model of `CDHCPOptionsHandler<Option>::resetOption` (callouts.cc lines 8-44):
computes the replacement `option_val` for the reset-style codes; for
`DHO_BOOT_FILE_NAME` with a null filename the previous `option_val`
(the saved pre-existing option) is kept; unknown codes log and keep it. -/
def resetOptionVal (c : Nat) (p : Param) (saved : Option Opt) :
    Except String (Option Opt) :=
  if c = DHO_SUBNET_MASK then
    match p with
    | Param.machine m => Except.ok (some ⟨c, OptVal.u32 m.interface_subnet_mask⟩)
    | _ => Except.error "bad any cast"
  else if c = DHO_BROADCAST_ADDRESS then
    match p with
    | Param.machine m => Except.ok (some ⟨c, OptVal.u32 m.broadcast_address⟩)
    | _ => Except.error "bad any cast"
  else if c = DHO_HOST_NAME then
    match p with
    | Param.machine m => (mkOptionStringE m.interface_hostname).map (fun v => some ⟨c, v⟩)
    | _ => Except.error "bad any cast"
  else if c = DHO_BOOT_FILE_NAME then
    match p with
    | Param.machine m =>
      match m.filename with
      | some f => (mkOptionStringE f).map (fun v => some ⟨c, v⟩)
      | none => Except.ok saved
    | _ => Except.error "bad any cast"
  else if c = DHO_VENDOR_CLASS_IDENTIFIER then
    match p with
    | Param.str s => (mkOptionStringE s).map (fun v => some ⟨DHO_VENDOR_CLASS_IDENTIFIER, v⟩)
    | _ => Except.error "bad any cast"
  else
    Except.ok saved

/-- Model of `CDHCPOptionsHandler<Option>::resetAndAddOption` (callouts.cc lines
59-101), acting on the response after the constructor already removed the
pre-existing option.  The `Bool` is the caught-exception flag. -/
def resetAndAddOption (resp : Pkt) (c : Nat) (p : Param) (saved : Option Opt) :
    Pkt × Bool :=
  if c = DHO_ROUTERS then
    match p with
    | Param.machine m =>
      match parseIPv4E m.interface_router with
      | Except.ok a => addOrThrow resp ⟨c, OptVal.addrList [a]⟩
      | Except.error _ => (resp, true)
    | _ => (resp, true)
  else if c = DHO_NAME_SERVERS ∨ c = DHO_DOMAIN_NAME_SERVERS ∨ c = DHO_NTP_SERVERS then
    match p with
    | Param.str s =>
      match getAddressesE s with
      | Except.ok l => addOrThrow resp ⟨c, OptVal.addrList l⟩
      | Except.error _ => (resp, true)
    | _ => (resp, true)
  else if c = DHO_MQTT_SERVER then
    match p with
    | Param.str s =>
      match mkOptionStringE s with
      | Except.ok v => addOrThrow resp ⟨c, v⟩
      | Except.error _ => (resp, true)
    | _ => (resp, true)
  else if c = DHO_SUBNET_MASK ∨ c = DHO_BROADCAST_ADDRESS ∨ c = DHO_HOST_NAME ∨
      c = DHO_BOOT_FILE_NAME ∨ c = DHO_VENDOR_CLASS_IDENTIFIER then
    match resetOptionVal c p saved with
    | Except.ok (some o) => addOrThrow resp o
    | Except.ok none => (resp, false)
    | Except.error _ => (resp, true)
  else if c = DHO_INTERFACE_MTU then
    match p with
    | Param.u16p v =>
      addOrThrow (resp.delOption DHO_INTERFACE_MTU) ⟨DHO_INTERFACE_MTU, OptVal.u16 v⟩
    | _ => (resp, true)
  else
    (resp, false)

/-- Model of `update_option<CDHCPOptionsHandler<...>>` (callouts.cc lines 108-121):
construct the handler (which removes the pre-existing option), then
`resetAndAddOption`; any exception is caught, logged, and turns into a
`NEXT_STEP_DROP` status (the `Bool`). -/
def updateOption (resp : Pkt) (c : Nat) (p : Param) : Pkt × Bool :=
  resetAndAddOption (ctorDelete resp c) c p (resp.getOption c)

/-- One `update_option` call inside `set_options`, threading the sticky
drop status. -/
def updStep (st : Pkt × Bool) (c : Nat) (p : Param) : Pkt × Bool :=
  let r := updateOption st.1 c p
  (r.1, st.2 || r.2)

/-- The MQTT `update_option` call of `set_options` (callouts.cc lines
269-275): only made when the record supplies an MQTT server. -/
def mqttPart (m : Machine) : List (Nat × Param) :=
  match m.mqtt_server with
  | some s => [(DHO_MQTT_SERVER, Param.str s)]
  | none => []

/-- The vendor-class `update_option` call of `set_options` (callouts.cc
lines 293-298): only made when the client type is non-empty. -/
def ctPart (m : Machine) : List (Nat × Param) :=
  if m.client_type = "" then []
  else [(DHO_VENDOR_CLASS_IDENTIFIER, Param.str m.client_type)]

/-- The calls of `set_options` from the MQTT option on. -/
def synthTail (m : Machine) : List (Nat × Param) :=
  mqttPart m ++
  ([(DHO_INTERFACE_MTU, Param.u16p m.interface_mtu),
    (DHO_SUBNET_MASK, Param.machine m),
    (DHO_BROADCAST_ADDRESS, Param.machine m),
    (DHO_HOST_NAME, Param.machine m),
    (DHO_BOOT_FILE_NAME, Param.machine m)] ++ ctPart m)

/-- The sequence of `update_option` calls performed by `set_options`
(callouts.cc lines 250-299), in source order. -/
def synthSteps (m : Machine) : List (Nat × Param) :=
  [(DHO_ROUTERS, Param.machine m),
   (DHO_NAME_SERVERS, Param.str m.nameservers),
   (DHO_DOMAIN_NAME_SERVERS, Param.str m.nameservers),
   (DHO_NTP_SERVERS, Param.str m.ntpservers)] ++ synthTail m

/-- Model of `set_options` (callouts.cc lines 250-299). -/
def set_options (resp : Pkt) (m : Machine) : Pkt × Bool :=
  (synthSteps m).foldl (fun st cp => updStep st cp.1 cp.2) (resp, false)

/-- The suboptions of the vendor-encapsulated option built by
`set_vendor_options` (callouts.cc lines 301-328): a fresh container, a
get/delete/add for sub-code 6 with the fixed 32-bit value 0x8, and a
get/delete/add for sub-code 70 with the machine UUID, added only when the
UUID is non-empty.  Suboption add (`Option::addOption`) appends. -/
def buildVendorSubs (m : Machine) : List (Nat × SubVal) :=
  let subs : List (Nat × SubVal) := []
  let subs := match subs.find? (fun s => s.1 == 6) with
              | some _ => subs.eraseP (fun s => s.1 == 6)
              | none => subs
  let subs := subs ++ [(6, SubVal.u32 8)]
  let subs := match subs.find? (fun s => s.1 == 70) with
              | some _ => subs.eraseP (fun s => s.1 == 70)
              | none => subs
  if m.uuid = "" then subs else subs ++ [(70, SubVal.str m.uuid)]

/-- Model of `set_vendor_options` (callouts.cc lines 301-328): the vendor option is
added to the response with a plain `addOption`, with no surrounding
try/catch, so a failing add escapes `pkt4_send`. -/
def set_vendor_options (resp : Pkt) (m : Machine) : Except String Pkt :=
  pkt4AddOption resp ⟨DHO_VENDOR_ENCAPSULATED_OPTIONS, OptVal.vendor (buildVendorSubs m)⟩

/-- Model of `pkt4_send` with the machine record already loaded from the context
(callouts.cc lines 477-518): set yiaddr, run `set_options`, set siaddr,
run `set_vendor_options`.  An escaped exception (either IOAddress parse
failure or the vendor add) means the send phase does not complete; the
`Bool` is the sticky drop status from `set_options`. -/
def sendPhase (resp : Pkt) (m : Machine) : Except String (Pkt × Bool) :=
  match parseIPv4E m.interface_address with
  | Except.error e => Except.error e
  | Except.ok yi =>
    match parseIPv4E m.next_server with
    | Except.error e => Except.error e
    | Except.ok si =>
      match set_vendor_options
          { (set_options { resp with yiaddr := yi } m).1 with siaddr := si } m with
      | Except.error e => Except.error e
      | Except.ok r => Except.ok (r, (set_options { resp with yiaddr := yi } m).2)

/-- Number of options with a given code in the response. -/
def countCode (p : Pkt) (c : Nat) : Nat :=
  (p.options.filter (fun o => o.code == c)).length

/-- A packet with at most one option per code — the invariant Kea maintains
on every packet it hands to the callouts. -/
def WellFormed (p : Pkt) : Prop :=
  ∀ c : Nat, countCode p c ≤ 1

/-- The option codes the response option synthesizer handles
(the cases of `resetAndAddOption`). -/
def handledCodes : List Nat :=
  [DHO_ROUTERS, DHO_NAME_SERVERS, DHO_DOMAIN_NAME_SERVERS, DHO_NTP_SERVERS,
   DHO_MQTT_SERVER, DHO_SUBNET_MASK, DHO_BROADCAST_ADDRESS, DHO_HOST_NAME,
   DHO_BOOT_FILE_NAME, DHO_VENDOR_CLASS_IDENTIFIER, DHO_INTERFACE_MTU]

/-- The recognized option codes written during the send phase. -/
def recognizedCodes : List Nat :=
  handledCodes ++ [DHO_VENDOR_ENCAPSULATED_OPTIONS]

/-- The value a successful `update_option` call writes for a handled code:
the per-code encoding of the parameter, failing exactly when the handler
branch would throw before adding. -/
def encodeParam (c : Nat) (p : Param) : Except String OptVal :=
  if c = DHO_ROUTERS then
    match p with
    | Param.machine m => (parseIPv4E m.interface_router).map (fun a => OptVal.addrList [a])
    | _ => Except.error "bad any cast"
  else if c = DHO_NAME_SERVERS ∨ c = DHO_DOMAIN_NAME_SERVERS ∨ c = DHO_NTP_SERVERS then
    match p with
    | Param.str s => (getAddressesE s).map OptVal.addrList
    | _ => Except.error "bad any cast"
  else if c = DHO_MQTT_SERVER then
    match p with
    | Param.str s => mkOptionStringE s
    | _ => Except.error "bad any cast"
  else if c = DHO_SUBNET_MASK then
    match p with
    | Param.machine m => Except.ok (OptVal.u32 m.interface_subnet_mask)
    | _ => Except.error "bad any cast"
  else if c = DHO_BROADCAST_ADDRESS then
    match p with
    | Param.machine m => Except.ok (OptVal.u32 m.broadcast_address)
    | _ => Except.error "bad any cast"
  else if c = DHO_HOST_NAME then
    match p with
    | Param.machine m => mkOptionStringE m.interface_hostname
    | _ => Except.error "bad any cast"
  else if c = DHO_BOOT_FILE_NAME then
    match p with
    | Param.machine m =>
      match m.filename with
      | some f => mkOptionStringE f
      | none => Except.error "no filename"
    | _ => Except.error "bad any cast"
  else if c = DHO_VENDOR_CLASS_IDENTIFIER then
    match p with
    | Param.str s => mkOptionStringE s
    | _ => Except.error "bad any cast"
  else if c = DHO_INTERFACE_MTU then
    match p with
    | Param.u16p v => Except.ok (OptVal.u16 v)
    | _ => Except.error "bad any cast"
  else
    Except.error "unhandled option code"

/-! ## Receive phase: query packet, discovery builder, pkt4_receive -/

/-- Value shapes of options found in the inbound query, as the
`dynamic_pointer_cast` in `update_discovery_parameters<T>` distinguishes
them: a raw byte option, an `OptionString`, an `OptionUint16`, or an
`OptionCustom` carrying suboptions (code and payload bytes). -/
inductive QVal where
  | raw (bytes : List Nat)
  | str (s : String)
  | u16v (v : Nat)
  | custom (subs : List (Nat × List Nat))
deriving DecidableEq, Repr

structure Query where
  giaddr : Nat
  hwaddr : List Nat
  options : List (Nat × QVal)
deriving DecidableEq, Repr

def getQOption (q : Query) (c : Nat) : Option QVal :=
  (q.options.find? (fun o => o.1 == c)).map (fun o => o.2)

def castCustom : QVal → Option (List (Nat × List Nat))
  | QVal.custom subs => some subs
  | _ => none

def castString : QVal → Option String
  | QVal.str s => some s
  | _ => none

def castU16 : QVal → Option Nat
  | QVal.u16v v => some v
  | _ => none

/-- Model of `Option::getData()` on a query option: the payload bytes.  An
`OptionCustom` packs each suboption as code, length, payload. -/
def qvalData : QVal → List Nat
  | QVal.raw b => b
  | QVal.str s => s.toList.map Char.toNat
  | QVal.u16v v => [v / 256 % 256, v % 256]
  | QVal.custom subs => (subs.map (fun s => s.1 :: s.2.length :: s.2)).flatten

/-- Suboption lookup inside an `OptionCustom` (`option_val->getOption(sub)`). -/
def lookupSub (subs : List (Nat × List Nat)) (c : Nat) : Option (List Nat) :=
  (subs.find? (fun s => s.1 == c)).map (fun s => s.2)

/-- Model of `Pkt4::isRelayed()`: giaddr is neither zero nor broadcast. -/
def pkt4IsRelayed (q : Query) : Bool :=
  (q.giaddr != 0) && (q.giaddr != 4294967295)

/-- Modelled from the spec: the result type returned by every
`discovery_*` FFI call of the Rust discovery builder (success or a typed
error, rendered by `discovery_builder_result_as_str`). -/
inductive DBResult where
  | Success
  | Failure (msg : String)
deriving DecidableEq, Repr

/-- Modelled from the spec: `discovery_builder_result_as_str`. -/
def discovery_builder_result_as_str : DBResult → String
  | DBResult.Success => "Success"
  | DBResult.Failure m => m

/-- A call into the discovery-builder FFI, recorded in order. -/
inductive DiscoveryCall where
  | setLinkSelect (a : Nat)
  | setCircuitId (s : String)
  | setRemoteId (s : String)
  | setVendorClass (s : String)
  | setDesiredAddress (s : String)
  | setClientSystem (v : Nat)
  | setRelay (a : Nat)
  | setMacAddress (m : List Nat)
  | fetchMachine
deriving DecidableEq, Repr

/-- Modelled from the spec: the discovery builder accumulates validated
fields; each setter records its call and, on success, its field. -/
structure Builder where
  link_selection : Option Nat := none
  circuit_id : Option String := none
  remote_id : Option String := none
  vendor_class : Option String := none
  desired_address : Option String := none
  client_system : Option Nat := none
  relay : Option Nat := none
  mac : Option (List Nat) := none
  calls : List DiscoveryCall := []
deriving DecidableEq, Repr

/-- Modelled from the spec: the environment determining the outcome of each
external discovery call (each setter returns success or failure; `resolve`
returns a machine record or a typed error). -/
structure DiscoveryEnv where
  linkSelectResult : Nat → DBResult
  circuitIdResult : String → DBResult
  remoteIdResult : String → DBResult
  vendorClassResult : String → DBResult
  desiredAddressResult : String → DBResult
  clientSystemResult : Nat → DBResult
  relayResult : Nat → DBResult
  macResult : List Nat → DBResult
  fetchResult : DBResult
  fetchedMachine : Option Machine

/-- Modelled from the spec: `discovery_set_link_select`. -/
def discovery_set_link_select (env : DiscoveryEnv) (b : Builder) (a : Nat) :
    Builder × DBResult :=
  let b := { b with calls := b.calls ++ [DiscoveryCall.setLinkSelect a] }
  match env.linkSelectResult a with
  | DBResult.Success => ({ b with link_selection := some a }, DBResult.Success)
  | r => (b, r)

/-- Modelled from the spec: `discovery_set_circuit_id`. -/
def discovery_set_circuit_id (env : DiscoveryEnv) (b : Builder) (s : String) :
    Builder × DBResult :=
  let b := { b with calls := b.calls ++ [DiscoveryCall.setCircuitId s] }
  match env.circuitIdResult s with
  | DBResult.Success => ({ b with circuit_id := some s }, DBResult.Success)
  | r => (b, r)

/-- Modelled from the spec: `discovery_set_remote_id`. -/
def discovery_set_remote_id (env : DiscoveryEnv) (b : Builder) (s : String) :
    Builder × DBResult :=
  let b := { b with calls := b.calls ++ [DiscoveryCall.setRemoteId s] }
  match env.remoteIdResult s with
  | DBResult.Success => ({ b with remote_id := some s }, DBResult.Success)
  | r => (b, r)

/-- Modelled from the spec: `discovery_set_vendor_class`. -/
def discovery_set_vendor_class (env : DiscoveryEnv) (b : Builder) (s : String) :
    Builder × DBResult :=
  let b := { b with calls := b.calls ++ [DiscoveryCall.setVendorClass s] }
  match env.vendorClassResult s with
  | DBResult.Success => ({ b with vendor_class := some s }, DBResult.Success)
  | r => (b, r)

/-- Modelled from the spec: `discovery_set_desired_address`. -/
def discovery_set_desired_address (env : DiscoveryEnv) (b : Builder) (s : String) :
    Builder × DBResult :=
  let b := { b with calls := b.calls ++ [DiscoveryCall.setDesiredAddress s] }
  match env.desiredAddressResult s with
  | DBResult.Success => ({ b with desired_address := some s }, DBResult.Success)
  | r => (b, r)

/-- Modelled from the spec: `discovery_set_client_system`. -/
def discovery_set_client_system (env : DiscoveryEnv) (b : Builder) (v : Nat) :
    Builder × DBResult :=
  let b := { b with calls := b.calls ++ [DiscoveryCall.setClientSystem v] }
  match env.clientSystemResult v with
  | DBResult.Success => ({ b with client_system := some v }, DBResult.Success)
  | r => (b, r)

/-- Modelled from the spec: `discovery_set_relay`. -/
def discovery_set_relay (env : DiscoveryEnv) (b : Builder) (a : Nat) :
    Builder × DBResult :=
  let b := { b with calls := b.calls ++ [DiscoveryCall.setRelay a] }
  match env.relayResult a with
  | DBResult.Success => ({ b with relay := some a }, DBResult.Success)
  | r => (b, r)

/-- Modelled from the spec: `discovery_set_mac_address`. -/
def discovery_set_mac_address (env : DiscoveryEnv) (b : Builder) (m : List Nat) :
    Builder × DBResult :=
  let b := { b with calls := b.calls ++ [DiscoveryCall.setMacAddress m] }
  match env.macResult m with
  | DBResult.Success => ({ b with mac := some m }, DBResult.Success)
  | r => (b, r)

/-- Modelled from the spec: `discovery_fetch_machine` — the resolve call;
on success the out-parameter receives the machine record. -/
def discovery_fetch_machine (env : DiscoveryEnv) (b : Builder) :
    Builder × DBResult × Option Machine :=
  let b := { b with calls := b.calls ++ [DiscoveryCall.fetchMachine] }
  match env.fetchResult with
  | DBResult.Success => (b, DBResult.Success, env.fetchedMachine)
  | r => (b, r, none)

/-- Diagnostics logged during the receive phase (the LOG_ERROR calls of
pkt4_receive and its helpers; info-level logging is not modelled). -/
inductive LogEvent where
  | nonRelayedDrop
  | missingOption (c : Nat)
  | desiredAddrLenWrong (n : Nat)
  | linkSelectFailed
  | circuitIdFailed
  | remoteIdFailed
  | fetchFailed (msg : String)
deriving DecidableEq, Repr

/-- Model of `update_discovery_parameters_option82` (callouts.cc lines 123-167):
handle one recognized Relay Agent Information suboption.  The
link-selection suboption is used only when its payload is exactly
`sizeof(uint32_t)` bytes; otherwise it is skipped with success. -/
def update_discovery_parameters_option82 (env : DiscoveryEnv) (b : Builder)
    (sub : Nat) (subs : List (Nat × List Nat)) : Builder × DBResult :=
  if sub = RAI_OPTION_LINK_SELECTION then
    match lookupSub subs RAI_OPTION_LINK_SELECTION with
    | some payload =>
      if payload.length = 4 then
        discovery_set_link_select env b (addrOfBytes payload)
      else (b, DBResult.Success)
    | none => (b, DBResult.Success)
  else if sub = RAI_OPTION_AGENT_CIRCUIT_ID then
    match lookupSub subs RAI_OPTION_AGENT_CIRCUIT_ID with
    | some payload => discovery_set_circuit_id env b (bytesToString payload)
    | none => (b, DBResult.Success)
  else if sub = RAI_OPTION_REMOTE_ID then
    match lookupSub subs RAI_OPTION_REMOTE_ID with
    | some payload => discovery_set_remote_id env b (bytesToString payload)
    | none => (b, DBResult.Success)
  else (b, DBResult.Success)

/-- Model of `update_discovery_parameters` for `OptionCustom` plus the generic
`update_discovery_parameters<OptionCustom>` wrapper applied to option 82
(callouts.cc lines 169-204 and 229-248): when option 82 is present, run
the three suboption handlers, short-circuiting on the first failure;
when absent (or not an OptionCustom), succeed without the missing-option
diagnostic (the code suppresses it for option 82). -/
def recvStepAgentOptions (q : Query) (env : DiscoveryEnv) (b : Builder) :
    Builder × DBResult × List LogEvent :=
  match (getQOption q DHO_DHCP_AGENT_OPTIONS).bind castCustom with
  | some subs =>
    let r1 := update_discovery_parameters_option82 env b RAI_OPTION_LINK_SELECTION subs
    if r1.2 ≠ DBResult.Success then (r1.1, r1.2, [LogEvent.linkSelectFailed])
    else
      let r2 := update_discovery_parameters_option82 env r1.1 RAI_OPTION_AGENT_CIRCUIT_ID subs
      if r2.2 ≠ DBResult.Success then (r2.1, r2.2, [LogEvent.circuitIdFailed])
      else
        let r3 := update_discovery_parameters_option82 env r2.1 RAI_OPTION_REMOTE_ID subs
        if r3.2 ≠ DBResult.Success then (r3.1, r3.2, [LogEvent.remoteIdFailed])
        else (r3.1, DBResult.Success, [])
  | none => (b, DBResult.Success, [])

/-- Model of `update_discovery_parameters<OptionString>` applied to option 60
(callouts.cc lines 206-216 and 229-248): a present vendor class is set;
an absent one is logged as missing and succeeds. -/
def recvStepVendorClass (q : Query) (env : DiscoveryEnv) (b : Builder) :
    Builder × DBResult × List LogEvent :=
  match (getQOption q DHO_VENDOR_CLASS_IDENTIFIER).bind castString with
  | some s =>
    let r := discovery_set_vendor_class env b s
    (r.1, r.2, [])
  | none => (b, DBResult.Success, [LogEvent.missingOption DHO_VENDOR_CLASS_IDENTIFIER])

/-- The requested-address block of `pkt4_receive` (callouts.cc lines
388-413): a present option 50 with a 4-byte payload is converted to text
and passed to `discovery_set_desired_address`, whose result is discarded
by the source; any other payload length logs a diagnostic and leaves the
field unset.  This block never changes the builder result. -/
def recvStepDesiredAddr (q : Query) (env : DiscoveryEnv) (b : Builder) :
    Builder × List LogEvent :=
  match getQOption q DHO_DHCP_REQUESTED_ADDRESS with
  | some v =>
    let buf := qvalData v
    if buf.length = 4 then
      ((discovery_set_desired_address env b (ipToText (addrOfBytes buf))).1, [])
    else (b, [LogEvent.desiredAddrLenWrong buf.length])
  | none => (b, [])

/-- Model of `update_discovery_parameters<OptionUint16>` applied to option 93
(callouts.cc lines 218-227 and 229-248). -/
def recvStepClientSystem (q : Query) (env : DiscoveryEnv) (b : Builder) :
    Builder × DBResult × List LogEvent :=
  match (getQOption q DHO_SYSTEM).bind castU16 with
  | some v =>
    let r := discovery_set_client_system env b v
    (r.1, r.2, [])
  | none => (b, DBResult.Success, [LogEvent.missingOption DHO_SYSTEM])

inductive RecvOutcome where
  | dropped (reason : String)
  | success (m : Machine)
deriving DecidableEq, Repr

structure RecvOut where
  outcome : RecvOutcome
  builder : Builder
  logs : List LogEvent
deriving DecidableEq, Repr

/-- Model of `pkt4_receive` (callouts.cc lines 331-475): drop non-relayed packets;
otherwise run option-82 extraction, vendor class, requested address
(result discarded), client system, relay, and MAC setters — each of the
result-checked steps guarded by the running builder result — then the
resolve call; a non-success result or a null machine drops the request
with the result string as the counted reason. -/
def receivePhase (q : Query) (env : DiscoveryEnv) : RecvOut :=
  if pkt4IsRelayed q then
    let b0 : Builder := {}
    let s1 := recvStepAgentOptions q env b0
    let s2 := if s1.2.1 = DBResult.Success then recvStepVendorClass q env s1.1
              else (s1.1, s1.2.1, [])
    let s3 := if s2.2.1 = DBResult.Success then recvStepDesiredAddr q env s2.1
              else (s2.1, [])
    let s4 := if s2.2.1 = DBResult.Success then recvStepClientSystem q env s3.1
              else (s3.1, s2.2.1, [])
    let s5 := if s4.2.1 = DBResult.Success then discovery_set_relay env s4.1 q.giaddr
              else (s4.1, s4.2.1)
    let s6 := if s5.2 = DBResult.Success then discovery_set_mac_address env s5.1 q.hwaddr
              else (s5.1, s5.2)
    let s7 := if s6.2 = DBResult.Success then discovery_fetch_machine env s6.1
              else (s6.1, s6.2, none)
    let logs := s1.2.2 ++ s2.2.2 ++ s3.2 ++ s4.2.2
    match s7.2.2, s7.2.1 with
    | some m, DBResult.Success => ⟨RecvOutcome.success m, s7.1, logs⟩
    | some _, r =>
      ⟨RecvOutcome.dropped (discovery_builder_result_as_str r), s7.1,
        logs ++ [LogEvent.fetchFailed (discovery_builder_result_as_str r)]⟩
    | none, r =>
      ⟨RecvOutcome.dropped (discovery_builder_result_as_str r), s7.1,
        logs ++ [LogEvent.fetchFailed (discovery_builder_result_as_str r)]⟩
  else
    ⟨RecvOutcome.dropped "NonRelayedPacket", {}, [LogEvent.nonRelayedDrop]⟩

/-- All discovery-builder setters succeed in this environment (the resolve
call and its result are unconstrained). -/
def SettersSucceed (env : DiscoveryEnv) : Prop :=
  (∀ a, env.linkSelectResult a = DBResult.Success) ∧
  (∀ s, env.circuitIdResult s = DBResult.Success) ∧
  (∀ s, env.remoteIdResult s = DBResult.Success) ∧
  (∀ s, env.vendorClassResult s = DBResult.Success) ∧
  (∀ v, env.clientSystemResult v = DBResult.Success) ∧
  (∀ a, env.relayResult a = DBResult.Success) ∧
  (∀ l, env.macResult l = DBResult.Success)

/-! ## Concrete fixtures used to evaluate the model -/

def pktEmpty : Pkt := {}

def pktNS : Pkt := { options := [⟨DHO_NAME_SERVERS, OptVal.addrList [167772161]⟩] }

def mGood : Machine where
  interface_address := "10.0.0.9"
  interface_subnet_mask := 4294967040
  broadcast_address := 167772415
  interface_router := "10.0.0.1"
  next_server := "10.0.0.2"
  interface_hostname := "host1"
  filename := some "pxe.efi"
  client_type := "HTTPClient"
  nameservers := "1.1.1.1,8.8.8.8"
  ntpservers := "2.2.2.2"
  mqtt_server := some "mq1"
  interface_mtu := 1500
  uuid := "u-1"

/-- Variant of `mGood` with a comma-separated two-address router value. -/
def mMultiRouter : Machine := { mGood with interface_router := "10.0.0.1,10.0.0.2" }

/-- The response packet produced by `sendPhase pktEmpty mGood`. -/
def rGood : Pkt where
  yiaddr := 167772169
  siaddr := 167772162
  options :=
    [⟨3, OptVal.addrList [167772161]⟩,
     ⟨5, OptVal.addrList [16843009, 134744072]⟩,
     ⟨6, OptVal.addrList [16843009, 134744072]⟩,
     ⟨42, OptVal.addrList [33686018]⟩,
     ⟨224, OptVal.str "mq1"⟩,
     ⟨26, OptVal.u16 1500⟩,
     ⟨1, OptVal.u32 4294967040⟩,
     ⟨28, OptVal.u32 167772415⟩,
     ⟨12, OptVal.str "host1"⟩,
     ⟨67, OptVal.str "pxe.efi"⟩,
     ⟨60, OptVal.str "HTTPClient"⟩,
     ⟨43, OptVal.vendor [(6, SubVal.u32 8), (70, SubVal.str "u-1")]⟩]

def bEmpty : Builder := {}

/-- An environment where every discovery call succeeds and the resolve call
returns `dm`. -/
def envAll (dm : Option Machine) : DiscoveryEnv where
  linkSelectResult := fun _ => DBResult.Success
  circuitIdResult := fun _ => DBResult.Success
  remoteIdResult := fun _ => DBResult.Success
  vendorClassResult := fun _ => DBResult.Success
  desiredAddressResult := fun _ => DBResult.Success
  clientSystemResult := fun _ => DBResult.Success
  relayResult := fun _ => DBResult.Success
  macResult := fun _ => DBResult.Success
  fetchResult := DBResult.Success
  fetchedMachine := dm

/-- An environment where the desired-address setter fails and everything
else succeeds. -/
def envDesiredFails : DiscoveryEnv :=
  { envAll (some mGood) with
    desiredAddressResult := fun _ => DBResult.Failure "DesiredAddressRejected" }

/-- A relayed query carrying a 4-byte requested address, a vendor class and
a client-system option. -/
def qFull : Query where
  giaddr := 167772161
  hwaddr := [170, 187, 204, 221, 238, 255]
  options := [(50, QVal.raw [10, 1, 2, 3]), (60, QVal.str "PXEClient"), (93, QVal.u16v 7)]

/-- Variant of `qFull` with a 3-byte requested-address payload. -/
def qShortAddr : Query :=
  { qFull with options := [(50, QVal.raw [10, 1, 2]), (60, QVal.str "PXEClient"), (93, QVal.u16v 7)] }

/-- A non-relayed query (giaddr zero). -/
def qZeroGiaddr : Query := { qFull with giaddr := 0 }

/-! ## Lemmas about the option container operations -/

theorem filter_eraseP_ne (l : List Opt) (c c' : Nat) (h : c' ≠ c) :
    (l.eraseP (fun o => o.code == c)).filter (fun o => o.code == c') =
      l.filter (fun o => o.code == c') := by
  induction l with
  | nil => rfl
  | cons x xs ih =>
    by_cases hx : x.code = c
    · have hx' : (x.code == c) = true := by simpa using hx
      have hxc' : ¬((x.code == c') = true) := by
        simp only [beq_iff_eq, hx]
        exact fun e => h e.symm
      simp [List.eraseP_cons, hx', List.filter_cons, hxc']
    · have hx' : (x.code == c) = false := by simpa using hx
      simp only [List.eraseP_cons, hx', cond_false, List.filter_cons]
      split <;> simp [ih]

theorem filter_eraseP_self (l : List Opt) (c : Nat)
    (h : (l.filter (fun o => o.code == c)).length ≤ 1) :
    (l.eraseP (fun o => o.code == c)).filter (fun o => o.code == c) = [] := by
  induction l with
  | nil => rfl
  | cons x xs ih =>
    by_cases hx : (x.code == c) = true
    · have hfil : xs.filter (fun o => o.code == c) = [] := by
        have hlen : (x :: xs.filter (fun o => o.code == c)).length ≤ 1 := by
          simpa [List.filter_cons, hx] using h
        have h0 : (xs.filter (fun o => o.code == c)).length = 0 := by
          simp only [List.length_cons] at hlen
          omega
        exact List.eq_nil_of_length_eq_zero h0
      simp [List.eraseP_cons, hx, hfil]
    · have hx' : (x.code == c) = false := by simpa using hx
      have h' : (xs.filter (fun o => o.code == c)).length ≤ 1 := by
        simpa [List.filter_cons, hx'] using h
      simp only [List.eraseP_cons, hx', cond_false, List.filter_cons]
      simp [hx', ih h']

theorem eraseP_eq_self_of_filter_nil (l : List Opt) (c : Nat)
    (h : l.filter (fun o => o.code == c) = []) :
    l.eraseP (fun o => o.code == c) = l :=
  List.eraseP_of_forall_not (List.filter_eq_nil_iff.mp h)

theorem getOption_none_iff (p : Pkt) (c : Nat) :
    p.getOption c = none ↔ p.options.filter (fun o => o.code == c) = [] := by
  simp [Pkt.getOption, List.find?_eq_none, List.filter_eq_nil_iff]

theorem getOption_code {p : Pkt} {c : Nat} {o : Opt} (h : p.getOption c = some o) :
    o.code = c := by
  unfold Pkt.getOption at h
  simpa using List.find?_some h

theorem filter_append_singleton_self {l : List Opt} {cc : Nat} {vv : OptVal}
    (h : l.filter (fun o => o.code == cc) = []) :
    (l ++ [(⟨cc, vv⟩ : Opt)]).filter (fun o => o.code == cc) = [(⟨cc, vv⟩ : Opt)] := by
  simp [List.filter_append, h, List.filter_cons]

theorem addOrThrow_filter_ne (resp : Pkt) (o : Opt) {c' : Nat} (h : c' ≠ o.code) :
    (addOrThrow resp o).1.options.filter (fun x => x.code == c') =
      resp.options.filter (fun x => x.code == c') := by
  have hne : (o.code == c') = false := by
    simp only [beq_eq_false_iff_ne]
    exact fun e => h e.symm
  cases hopt : resp.getOption o.code <;>
    simp [addOrThrow, pkt4AddOption, hopt, List.filter_append, List.filter_cons, hne]

theorem addOrThrow_of_filter_nil (resp : Pkt) (o : Opt)
    (h : resp.options.filter (fun x => x.code == o.code) = []) :
    addOrThrow resp o = ({ resp with options := resp.options ++ [o] }, false) := by
  have hnone : resp.getOption o.code = none := (getOption_none_iff resp o.code).mpr h
  simp [addOrThrow, pkt4AddOption, hnone]

theorem ctorDelete_filter_self (resp : Pkt) (c : Nat) (h : countCode resp c ≤ 1) :
    (ctorDelete resp c).options.filter (fun o => o.code == c) = [] := by
  unfold countCode at h
  unfold ctorDelete
  cases hopt : resp.getOption c with
  | none => exact (getOption_none_iff resp c).mp hopt
  | some o => simpa [Pkt.delOption] using filter_eraseP_self resp.options c h

theorem ctorDelete_filter_ne (resp : Pkt) (c : Nat) {c' : Nat} (h : c' ≠ c) :
    (ctorDelete resp c).options.filter (fun o => o.code == c') =
      resp.options.filter (fun o => o.code == c') := by
  unfold ctorDelete
  cases resp.getOption c with
  | none => rfl
  | some o => simpa [Pkt.delOption] using filter_eraseP_ne resp.options c c' h

theorem resetOptionVal_code {c : Nat} {p : Param} {saved : Option Opt} {o : Opt}
    (hsaved : ∀ x, saved = some x → x.code = c)
    (h : resetOptionVal c p saved = Except.ok (some o)) : o.code = c := by
  unfold resetOptionVal mkOptionStringE at h
  repeat' split at h
  all_goals simp_all [Except.map]
  all_goals (subst h; rfl)

/-- From a state holding no option of code `c`, `resetAndAddOption` either
leaves the packet unchanged or appends exactly one option of code `c`
(and then reports no exception). -/
theorem resetAndAddOption_spec (resp : Pkt) (c : Nat) (p : Param) (saved : Option Opt)
    (hsaved : ∀ x, saved = some x → x.code = c)
    (hnil : resp.options.filter (fun o => o.code == c) = []) :
    (resetAndAddOption resp c p saved).1 = resp ∨
      ∃ v : OptVal, resetAndAddOption resp c p saved =
        ({ resp with options := resp.options ++ [⟨c, v⟩] }, false) := by
  unfold resetAndAddOption
  split
  · split
    · split
      · rename_i m a heq
        exact Or.inr ⟨OptVal.addrList [a],
          addOrThrow_of_filter_nil resp ⟨c, OptVal.addrList [a]⟩ hnil⟩
      · exact Or.inl rfl
    · exact Or.inl rfl
  · split
    · split
      · split
        · rename_i s l heq
          exact Or.inr ⟨OptVal.addrList l,
            addOrThrow_of_filter_nil resp ⟨c, OptVal.addrList l⟩ hnil⟩
        · exact Or.inl rfl
      · exact Or.inl rfl
    · split
      · split
        · split
          · rename_i s v heq
            exact Or.inr ⟨v, addOrThrow_of_filter_nil resp ⟨c, v⟩ hnil⟩
          · exact Or.inl rfl
        · exact Or.inl rfl
      · split
        · split
          · rename_i o heq
            obtain ⟨oc, ov⟩ := o
            have hoc : oc = c := resetOptionVal_code hsaved heq
            subst hoc
            exact Or.inr ⟨ov, addOrThrow_of_filter_nil resp ⟨oc, ov⟩ hnil⟩
          · exact Or.inl rfl
          · exact Or.inl rfl
        · split
          · rename_i hc
            split
            · rename_i v
              subst hc
              have hdel : resp.delOption DHO_INTERFACE_MTU = resp := by
                simp [Pkt.delOption, eraseP_eq_self_of_filter_nil _ _ hnil]
              rw [hdel]
              exact Or.inr ⟨OptVal.u16 v,
                addOrThrow_of_filter_nil resp ⟨DHO_INTERFACE_MTU, OptVal.u16 v⟩ hnil⟩
            · exact Or.inl rfl
          · exact Or.inl rfl

theorem updateOption_filter_ne (resp : Pkt) (c : Nat) (p : Param)
    (hcount : countCode resp c ≤ 1) {c' : Nat} (h : c' ≠ c) :
    (updateOption resp c p).1.options.filter (fun o => o.code == c') =
      resp.options.filter (fun o => o.code == c') := by
  unfold updateOption
  have hnil := ctorDelete_filter_self resp c hcount
  have hsaved : ∀ x, resp.getOption c = some x → x.code = c := fun _ hx => getOption_code hx
  rcases resetAndAddOption_spec (ctorDelete resp c) c p (resp.getOption c) hsaved hnil
    with h1 | ⟨v, h2⟩
  · rw [h1]
    exact ctorDelete_filter_ne resp c h
  · rw [h2]
    have hne : ((⟨c, v⟩ : Opt).code == c') = false := by
      simp only [beq_eq_false_iff_ne]
      exact fun e => h e.symm
    simp only [List.filter_append, List.filter_cons, hne]
    simp [ctorDelete_filter_ne resp c h]

theorem updateOption_count_le (resp : Pkt) (c : Nat) (p : Param)
    (hcount : countCode resp c ≤ 1) :
    countCode (updateOption resp c p).1 c ≤ 1 := by
  unfold updateOption countCode
  have hnil := ctorDelete_filter_self resp c hcount
  have hsaved : ∀ x, resp.getOption c = some x → x.code = c := fun _ hx => getOption_code hx
  rcases resetAndAddOption_spec (ctorDelete resp c) c p (resp.getOption c) hsaved hnil
    with h1 | ⟨v, h2⟩
  · rw [h1, hnil]
    simp
  · rw [h2]
    simp [List.filter_append, hnil, List.filter_cons]

theorem updateOption_fail_filter_nil (resp : Pkt) (c : Nat) (p : Param)
    (hcount : countCode resp c ≤ 1)
    (hfail : (updateOption resp c p).2 = true) :
    (updateOption resp c p).1.options.filter (fun o => o.code == c) = [] := by
  unfold updateOption at hfail ⊢
  have hnil := ctorDelete_filter_self resp c hcount
  have hsaved : ∀ x, resp.getOption c = some x → x.code = c := fun _ hx => getOption_code hx
  rcases resetAndAddOption_spec (ctorDelete resp c) c p (resp.getOption c) hsaved hnil
    with h1 | ⟨v, h2⟩
  · rw [h1]
    exact hnil
  · rw [h2] at hfail
    simp at hfail

/-- A successful `update_option` call writes exactly the encoded value: the
response ends with precisely one option of the handled code, holding the
encoding of the parameter, and no exception is raised. -/
theorem updateOption_ok (resp : Pkt) (c : Nat) (p : Param) (v : OptVal)
    (hcount : countCode resp c ≤ 1) (henc : encodeParam c p = Except.ok v) :
    (updateOption resp c p).1.options.filter (fun o => o.code == c) = [⟨c, v⟩] ∧
    (updateOption resp c p).2 = false := by
  have hnil := ctorDelete_filter_self resp c hcount
  unfold updateOption
  unfold encodeParam at henc
  split at henc
  · rename_i hcond
    subst hcond
    split at henc
    · rename_i m
      cases hpar : parseIPv4E m.interface_router with
      | ok a =>
        rw [hpar] at henc
        simp only [Except.map] at henc
        obtain rfl : OptVal.addrList [a] = v := by simpa using henc
        have hbr : resetAndAddOption (ctorDelete resp DHO_ROUTERS) DHO_ROUTERS
            (Param.machine m) (resp.getOption DHO_ROUTERS) =
            addOrThrow (ctorDelete resp DHO_ROUTERS) ⟨DHO_ROUTERS, OptVal.addrList [a]⟩ := by
          simp [resetAndAddOption, hpar]
        rw [hbr, addOrThrow_of_filter_nil _ _ hnil]
        exact ⟨filter_append_singleton_self hnil, rfl⟩
      | error e =>
        rw [hpar] at henc
        simp [Except.map] at henc
    · simp at henc
  · split at henc
    · rename_i hn1 hcond
      split at henc
      · rename_i s
        cases hpar : getAddressesE s with
        | ok l =>
          rw [hpar] at henc
          simp only [Except.map] at henc
          obtain rfl : OptVal.addrList l = v := by simpa using henc
          have hbr : resetAndAddOption (ctorDelete resp c) c
              (Param.str s) (resp.getOption c) =
              addOrThrow (ctorDelete resp c) ⟨c, OptVal.addrList l⟩ := by
            simp [resetAndAddOption, hn1, hcond, hpar]
          rw [hbr, addOrThrow_of_filter_nil _ _ hnil]
          exact ⟨filter_append_singleton_self hnil, rfl⟩
        | error e =>
          rw [hpar] at henc
          simp [Except.map] at henc
      · simp at henc
    · split at henc
      · rename_i hcond
        subst hcond
        split at henc
        · rename_i s
          unfold mkOptionStringE at henc
          split at henc
          · simp at henc
          · rename_i hs
            obtain rfl : OptVal.str s = v := by simpa using henc
            have hbr : resetAndAddOption (ctorDelete resp DHO_MQTT_SERVER) DHO_MQTT_SERVER
                (Param.str s) (resp.getOption DHO_MQTT_SERVER) =
                addOrThrow (ctorDelete resp DHO_MQTT_SERVER) ⟨DHO_MQTT_SERVER, OptVal.str s⟩ := by
              simp [resetAndAddOption, mkOptionStringE, hs, DHO_MQTT_SERVER, DHO_ROUTERS,
                DHO_NAME_SERVERS, DHO_DOMAIN_NAME_SERVERS, DHO_NTP_SERVERS]
            rw [hbr, addOrThrow_of_filter_nil _ _ hnil]
            exact ⟨filter_append_singleton_self hnil, rfl⟩
        · simp at henc
      · split at henc
        · rename_i hcond
          subst hcond
          split at henc
          · rename_i m
            obtain rfl : OptVal.u32 m.interface_subnet_mask = v := by simpa using henc
            have hbr : resetAndAddOption (ctorDelete resp DHO_SUBNET_MASK) DHO_SUBNET_MASK
                (Param.machine m) (resp.getOption DHO_SUBNET_MASK) =
                addOrThrow (ctorDelete resp DHO_SUBNET_MASK)
                  ⟨DHO_SUBNET_MASK, OptVal.u32 m.interface_subnet_mask⟩ := by
              simp [resetAndAddOption, resetOptionVal, DHO_SUBNET_MASK, DHO_ROUTERS,
                DHO_NAME_SERVERS, DHO_DOMAIN_NAME_SERVERS, DHO_NTP_SERVERS, DHO_MQTT_SERVER]
            rw [hbr, addOrThrow_of_filter_nil _ _ hnil]
            exact ⟨filter_append_singleton_self hnil, rfl⟩
          · simp at henc
        · split at henc
          · rename_i hcond
            subst hcond
            split at henc
            · rename_i m
              obtain rfl : OptVal.u32 m.broadcast_address = v := by simpa using henc
              have hbr : resetAndAddOption (ctorDelete resp DHO_BROADCAST_ADDRESS)
                  DHO_BROADCAST_ADDRESS (Param.machine m)
                  (resp.getOption DHO_BROADCAST_ADDRESS) =
                  addOrThrow (ctorDelete resp DHO_BROADCAST_ADDRESS)
                    ⟨DHO_BROADCAST_ADDRESS, OptVal.u32 m.broadcast_address⟩ := by
                simp [resetAndAddOption, resetOptionVal, DHO_BROADCAST_ADDRESS, DHO_ROUTERS,
                  DHO_NAME_SERVERS, DHO_DOMAIN_NAME_SERVERS, DHO_NTP_SERVERS, DHO_MQTT_SERVER,
                  DHO_SUBNET_MASK]
              rw [hbr, addOrThrow_of_filter_nil _ _ hnil]
              exact ⟨filter_append_singleton_self hnil, rfl⟩
            · simp at henc
          · split at henc
            · rename_i hcond
              subst hcond
              split at henc
              · rename_i m
                unfold mkOptionStringE at henc
                split at henc
                · simp at henc
                · rename_i hs
                  obtain rfl : OptVal.str m.interface_hostname = v := by simpa using henc
                  have hbr : resetAndAddOption (ctorDelete resp DHO_HOST_NAME) DHO_HOST_NAME
                      (Param.machine m) (resp.getOption DHO_HOST_NAME) =
                      addOrThrow (ctorDelete resp DHO_HOST_NAME)
                        ⟨DHO_HOST_NAME, OptVal.str m.interface_hostname⟩ := by
                    simp [resetAndAddOption, resetOptionVal, mkOptionStringE, hs, Except.map,
                      DHO_HOST_NAME, DHO_ROUTERS, DHO_NAME_SERVERS, DHO_DOMAIN_NAME_SERVERS,
                      DHO_NTP_SERVERS, DHO_MQTT_SERVER, DHO_SUBNET_MASK, DHO_BROADCAST_ADDRESS]
                  rw [hbr, addOrThrow_of_filter_nil _ _ hnil]
                  exact ⟨filter_append_singleton_self hnil, rfl⟩
              · simp at henc
            · split at henc
              · rename_i hcond
                subst hcond
                split at henc
                · rename_i m
                  split at henc
                  · rename_i f heqf
                    unfold mkOptionStringE at henc
                    split at henc
                    · simp at henc
                    · rename_i hs
                      obtain rfl : OptVal.str f = v := by simpa using henc
                      have hbr : resetAndAddOption (ctorDelete resp DHO_BOOT_FILE_NAME)
                          DHO_BOOT_FILE_NAME (Param.machine m)
                          (resp.getOption DHO_BOOT_FILE_NAME) =
                          addOrThrow (ctorDelete resp DHO_BOOT_FILE_NAME)
                            ⟨DHO_BOOT_FILE_NAME, OptVal.str f⟩ := by
                        simp [resetAndAddOption, resetOptionVal, mkOptionStringE, hs, heqf,
                          Except.map, DHO_BOOT_FILE_NAME, DHO_ROUTERS, DHO_NAME_SERVERS,
                          DHO_DOMAIN_NAME_SERVERS, DHO_NTP_SERVERS, DHO_MQTT_SERVER,
                          DHO_SUBNET_MASK, DHO_BROADCAST_ADDRESS, DHO_HOST_NAME]
                      rw [hbr, addOrThrow_of_filter_nil _ _ hnil]
                      exact ⟨filter_append_singleton_self hnil, rfl⟩
                  · simp at henc
                · simp at henc
              · split at henc
                · rename_i hcond
                  subst hcond
                  split at henc
                  · rename_i s
                    unfold mkOptionStringE at henc
                    split at henc
                    · simp at henc
                    · rename_i hs
                      obtain rfl : OptVal.str s = v := by simpa using henc
                      have hbr : resetAndAddOption (ctorDelete resp DHO_VENDOR_CLASS_IDENTIFIER)
                          DHO_VENDOR_CLASS_IDENTIFIER (Param.str s)
                          (resp.getOption DHO_VENDOR_CLASS_IDENTIFIER) =
                          addOrThrow (ctorDelete resp DHO_VENDOR_CLASS_IDENTIFIER)
                            ⟨DHO_VENDOR_CLASS_IDENTIFIER, OptVal.str s⟩ := by
                        simp [resetAndAddOption, resetOptionVal, mkOptionStringE, hs,
                          Except.map, DHO_VENDOR_CLASS_IDENTIFIER, DHO_ROUTERS, DHO_NAME_SERVERS,
                          DHO_DOMAIN_NAME_SERVERS, DHO_NTP_SERVERS, DHO_MQTT_SERVER,
                          DHO_SUBNET_MASK, DHO_BROADCAST_ADDRESS, DHO_HOST_NAME,
                          DHO_BOOT_FILE_NAME]
                      rw [hbr, addOrThrow_of_filter_nil _ _ hnil]
                      exact ⟨filter_append_singleton_self hnil, rfl⟩
                  · simp at henc
                · split at henc
                  · rename_i hcond
                    subst hcond
                    split at henc
                    · rename_i n
                      obtain rfl : OptVal.u16 n = v := by simpa using henc
                      have hdel : (ctorDelete resp DHO_INTERFACE_MTU).delOption
                          DHO_INTERFACE_MTU = ctorDelete resp DHO_INTERFACE_MTU := by
                        simp [Pkt.delOption, eraseP_eq_self_of_filter_nil _ _ hnil]
                      simp only [DHO_INTERFACE_MTU] at hdel
                      have hbr : resetAndAddOption (ctorDelete resp DHO_INTERFACE_MTU)
                          DHO_INTERFACE_MTU (Param.u16p n)
                          (resp.getOption DHO_INTERFACE_MTU) =
                          addOrThrow (ctorDelete resp DHO_INTERFACE_MTU)
                            ⟨DHO_INTERFACE_MTU, OptVal.u16 n⟩ := by
                        simp [resetAndAddOption, hdel, DHO_INTERFACE_MTU, DHO_ROUTERS,
                          DHO_NAME_SERVERS, DHO_DOMAIN_NAME_SERVERS, DHO_NTP_SERVERS,
                          DHO_MQTT_SERVER, DHO_SUBNET_MASK, DHO_BROADCAST_ADDRESS,
                          DHO_HOST_NAME, DHO_BOOT_FILE_NAME, DHO_VENDOR_CLASS_IDENTIFIER]
                      rw [hbr, addOrThrow_of_filter_nil _ _ hnil]
                      exact ⟨filter_append_singleton_self hnil, rfl⟩
                    · simp at henc
                  · simp at henc

theorem updStep_wf (st : Pkt × Bool) (c : Nat) (p : Param) (h : WellFormed st.1) :
    WellFormed (updStep st c p).1 := by
  intro c'
  by_cases hc : c' = c
  · subst hc
    exact updateOption_count_le st.1 c' p (h c')
  · show countCode _ _ ≤ 1
    unfold countCode updStep
    rw [updateOption_filter_ne st.1 c p (h c) hc]
    exact h c'

theorem foldl_updStep_wf (steps : List (Nat × Param)) (st : Pkt × Bool)
    (h : WellFormed st.1) :
    WellFormed ((steps.foldl (fun s cp => updStep s cp.1 cp.2) st).1) := by
  induction steps generalizing st with
  | nil => exact h
  | cons x xs ih => exact ih _ (updStep_wf st x.1 x.2 h)

theorem foldl_updStep_filter_not_mem (steps : List (Nat × Param)) (st : Pkt × Bool)
    {c' : Nat} (hwf : WellFormed st.1) (h : ∀ x ∈ steps, x.1 ≠ c') :
    ((steps.foldl (fun s cp => updStep s cp.1 cp.2) st).1.options.filter
      (fun o => o.code == c')) = st.1.options.filter (fun o => o.code == c') := by
  induction steps generalizing st with
  | nil => rfl
  | cons x xs ih =>
    rw [List.foldl_cons,
      ih _ (updStep_wf st x.1 x.2 hwf) (fun y hy => h y (List.mem_cons_of_mem _ hy))]
    show (updateOption st.1 x.1 x.2).1.options.filter _ = _
    exact updateOption_filter_ne st.1 x.1 x.2 (hwf x.1)
      (fun e => h x (List.mem_cons_self _ _) e.symm)

theorem foldl_updStep_step (pre post : List (Nat × Param)) (st : Pkt × Bool)
    (c : Nat) (p : Param) (v : OptVal) (hwf : WellFormed st.1)
    (hpost : ∀ x ∈ post, x.1 ≠ c)
    (henc : encodeParam c p = Except.ok v) :
    (((pre ++ (c, p) :: post).foldl (fun s cp => updStep s cp.1 cp.2) st).1.options.filter
      (fun o => o.code == c)) = [⟨c, v⟩] := by
  rw [List.foldl_append, List.foldl_cons]
  have hwfpre : WellFormed ((pre.foldl (fun s cp => updStep s cp.1 cp.2) st)).1 :=
    foldl_updStep_wf pre st hwf
  have hwfstep : WellFormed
      ((updStep (pre.foldl (fun s cp => updStep s cp.1 cp.2) st) c p)).1 :=
    updStep_wf _ c p hwfpre
  rw [foldl_updStep_filter_not_mem post _ hwfstep hpost]
  show (updateOption _ c p).1.options.filter _ = _
  exact (updateOption_ok _ c p v (hwfpre c) henc).1

theorem mqttPart_fst (m : Machine) : ∀ x ∈ mqttPart m, x.1 = DHO_MQTT_SERVER := by
  unfold mqttPart
  cases m.mqtt_server <;> simp

theorem ctPart_fst (m : Machine) : ∀ x ∈ ctPart m, x.1 = DHO_VENDOR_CLASS_IDENTIFIER := by
  unfold ctPart
  split <;> simp

theorem synthTail_fst_mem (m : Machine) :
    ∀ x ∈ synthTail m,
      x.1 ∈ ([DHO_MQTT_SERVER, DHO_INTERFACE_MTU, DHO_SUBNET_MASK, DHO_BROADCAST_ADDRESS,
        DHO_HOST_NAME, DHO_BOOT_FILE_NAME, DHO_VENDOR_CLASS_IDENTIFIER] : List Nat) := by
  intro x hx
  unfold synthTail at hx
  rcases List.mem_append.mp hx with h | h
  · rw [mqttPart_fst m x h]
    simp
  · rcases List.mem_append.mp h with h | h
    · fin_cases h <;> simp
    · rw [ctPart_fst m x h]
      simp

theorem synthTail_fst_ne (m : Machine) (c : Nat)
    (hc : ¬ c ∈ ([DHO_MQTT_SERVER, DHO_INTERFACE_MTU, DHO_SUBNET_MASK, DHO_BROADCAST_ADDRESS,
      DHO_HOST_NAME, DHO_BOOT_FILE_NAME, DHO_VENDOR_CLASS_IDENTIFIER] : List Nat)) :
    ∀ x ∈ synthTail m, x.1 ≠ c := by
  intro x hx heq
  exact hc (heq ▸ synthTail_fst_mem m x hx)

/-- The address-list options written by `set_options`: the router option is
built from a single parsed address; the two nameserver options (codes 5
and 6) and the NTP option are built from comma-separated lists. -/
theorem set_options_address_options (resp : Pkt) (m : Machine) (a : Nat) (ns ntp : List Nat)
    (hwf : WellFormed resp)
    (hr : parseIPv4E m.interface_router = Except.ok a)
    (hns : getAddressesE m.nameservers = Except.ok ns)
    (hntp : getAddressesE m.ntpservers = Except.ok ntp) :
    (set_options resp m).1.options.filter (fun o => o.code == DHO_ROUTERS) =
      [⟨DHO_ROUTERS, OptVal.addrList [a]⟩] ∧
    (set_options resp m).1.options.filter (fun o => o.code == DHO_NAME_SERVERS) =
      [⟨DHO_NAME_SERVERS, OptVal.addrList ns⟩] ∧
    (set_options resp m).1.options.filter (fun o => o.code == DHO_DOMAIN_NAME_SERVERS) =
      [⟨DHO_DOMAIN_NAME_SERVERS, OptVal.addrList ns⟩] ∧
    (set_options resp m).1.options.filter (fun o => o.code == DHO_NTP_SERVERS) =
      [⟨DHO_NTP_SERVERS, OptVal.addrList ntp⟩] := by
  unfold set_options synthSteps
  refine ⟨?_, ?_, ?_, ?_⟩
  · have hpost : ∀ x ∈ ([(DHO_NAME_SERVERS, Param.str m.nameservers),
        (DHO_DOMAIN_NAME_SERVERS, Param.str m.nameservers),
        (DHO_NTP_SERVERS, Param.str m.ntpservers)] ++ synthTail m), x.1 ≠ DHO_ROUTERS := by
      intro x hx
      rcases List.mem_append.mp hx with h | h
      · fin_cases h <;>
          simp [DHO_NAME_SERVERS, DHO_DOMAIN_NAME_SERVERS, DHO_NTP_SERVERS, DHO_ROUTERS]
      · exact synthTail_fst_ne m DHO_ROUTERS (by decide) x h
    have henc : encodeParam DHO_ROUTERS (Param.machine m) =
        Except.ok (OptVal.addrList [a]) := by
      simp [encodeParam, hr, Except.map]
    exact foldl_updStep_step [] _ (resp, false) DHO_ROUTERS (Param.machine m)
      (OptVal.addrList [a]) hwf hpost henc
  · have hpost : ∀ x ∈ ([(DHO_DOMAIN_NAME_SERVERS, Param.str m.nameservers),
        (DHO_NTP_SERVERS, Param.str m.ntpservers)] ++ synthTail m),
        x.1 ≠ DHO_NAME_SERVERS := by
      intro x hx
      rcases List.mem_append.mp hx with h | h
      · fin_cases h <;>
          simp [DHO_NAME_SERVERS, DHO_DOMAIN_NAME_SERVERS, DHO_NTP_SERVERS]
      · exact synthTail_fst_ne m DHO_NAME_SERVERS (by decide) x h
    have henc : encodeParam DHO_NAME_SERVERS (Param.str m.nameservers) =
        Except.ok (OptVal.addrList ns) := by
      simp [encodeParam, hns, Except.map, DHO_NAME_SERVERS, DHO_ROUTERS]
    exact foldl_updStep_step [(DHO_ROUTERS, Param.machine m)] _ (resp, false)
      DHO_NAME_SERVERS (Param.str m.nameservers) (OptVal.addrList ns) hwf hpost henc
  · have hpost : ∀ x ∈ ([(DHO_NTP_SERVERS, Param.str m.ntpservers)] ++ synthTail m),
        x.1 ≠ DHO_DOMAIN_NAME_SERVERS := by
      intro x hx
      rcases List.mem_append.mp hx with h | h
      · fin_cases h
        simp [DHO_NTP_SERVERS, DHO_DOMAIN_NAME_SERVERS]
      · exact synthTail_fst_ne m DHO_DOMAIN_NAME_SERVERS (by decide) x h
    have henc : encodeParam DHO_DOMAIN_NAME_SERVERS (Param.str m.nameservers) =
        Except.ok (OptVal.addrList ns) := by
      simp [encodeParam, hns, Except.map, DHO_DOMAIN_NAME_SERVERS, DHO_ROUTERS,
        DHO_NAME_SERVERS]
    exact foldl_updStep_step [(DHO_ROUTERS, Param.machine m),
      (DHO_NAME_SERVERS, Param.str m.nameservers)] _ (resp, false)
      DHO_DOMAIN_NAME_SERVERS (Param.str m.nameservers) (OptVal.addrList ns) hwf hpost henc
  · have hpost : ∀ x ∈ synthTail m, x.1 ≠ DHO_NTP_SERVERS :=
      synthTail_fst_ne m DHO_NTP_SERVERS (by decide)
    have henc : encodeParam DHO_NTP_SERVERS (Param.str m.ntpservers) =
        Except.ok (OptVal.addrList ntp) := by
      simp [encodeParam, hntp, Except.map, DHO_NTP_SERVERS, DHO_ROUTERS,
        DHO_NAME_SERVERS, DHO_DOMAIN_NAME_SERVERS]
    exact foldl_updStep_step [(DHO_ROUTERS, Param.machine m),
      (DHO_NAME_SERVERS, Param.str m.nameservers),
      (DHO_DOMAIN_NAME_SERVERS, Param.str m.nameservers)] _ (resp, false)
      DHO_NTP_SERVERS (Param.str m.ntpservers) (OptVal.addrList ntp) hwf hpost henc

theorem pktEmpty_wf : WellFormed pktEmpty := by
  intro c
  simp [countCode, pktEmpty]

theorem pktNS_wf : WellFormed pktNS := by
  intro c
  unfold countCode pktNS
  by_cases h : (DHO_NAME_SERVERS : Nat) = c <;> simp [List.filter_cons, h]

/-- A response that already carries a vendor-encapsulated option makes the
send phase fail: `set_vendor_options` appends without deleting, and the
duplicate-rejecting `addOption` throws, so the send phase never completes
with a pre-existing option 43. -/
theorem sendPhase_fails_on_preexisting_vendor_option :
    sendPhase { options := [⟨DHO_VENDOR_ENCAPSULATED_OPTIONS, OptVal.vendor []⟩] } mGood =
      Except.error "Option already present in this message" := rfl

/-! ## Receive-phase step lemmas -/

theorem upd82sub_ok {env : DiscoveryEnv}
    (hls : ∀ a, env.linkSelectResult a = DBResult.Success)
    (hci : ∀ s, env.circuitIdResult s = DBResult.Success)
    (hri : ∀ s, env.remoteIdResult s = DBResult.Success)
    (b : Builder) (sub : Nat) (subs : List (Nat × List Nat)) :
    ∃ b' : Builder,
      update_discovery_parameters_option82 env b sub subs = (b', DBResult.Success) ∧
      b'.desired_address = b.desired_address ∧
      (∀ x ∈ b.calls, x ∈ b'.calls) := by
  unfold update_discovery_parameters_option82
  split
  · split
    · rename_i payload heq
      split
      · refine ⟨{ b with link_selection := some (addrOfBytes payload), calls := b.calls ++ [DiscoveryCall.setLinkSelect (addrOfBytes payload)] }, ?_, rfl, ?_⟩
        · simp [discovery_set_link_select, hls]
        · intro x hx
          exact List.mem_append.mpr (Or.inl hx)
      · exact ⟨b, rfl, rfl, fun _ hx => hx⟩
    · exact ⟨b, rfl, rfl, fun _ hx => hx⟩
  · split
    · split
      · rename_i payload heq
        refine ⟨{ b with circuit_id := some (bytesToString payload), calls := b.calls ++ [DiscoveryCall.setCircuitId (bytesToString payload)] }, ?_, rfl, ?_⟩
        · simp [discovery_set_circuit_id, hci]
        · intro x hx
          exact List.mem_append.mpr (Or.inl hx)
      · exact ⟨b, rfl, rfl, fun _ hx => hx⟩
    · split
      · split
        · rename_i payload heq
          refine ⟨{ b with remote_id := some (bytesToString payload), calls := b.calls ++ [DiscoveryCall.setRemoteId (bytesToString payload)] }, ?_, rfl, ?_⟩
          · simp [discovery_set_remote_id, hri]
          · intro x hx
            exact List.mem_append.mpr (Or.inl hx)
        · exact ⟨b, rfl, rfl, fun _ hx => hx⟩
      · exact ⟨b, rfl, rfl, fun _ hx => hx⟩

theorem recvStepAgentOptions_ok {env : DiscoveryEnv}
    (hls : ∀ a, env.linkSelectResult a = DBResult.Success)
    (hci : ∀ s, env.circuitIdResult s = DBResult.Success)
    (hri : ∀ s, env.remoteIdResult s = DBResult.Success)
    (q : Query) (b : Builder) :
    ∃ (b' : Builder) (l : List LogEvent),
      recvStepAgentOptions q env b = (b', DBResult.Success, l) ∧
      b'.desired_address = b.desired_address ∧
      (∀ x ∈ b.calls, x ∈ b'.calls) := by
  unfold recvStepAgentOptions
  cases hopt : (getQOption q DHO_DHCP_AGENT_OPTIONS).bind castCustom with
  | none => exact ⟨b, [], rfl, rfl, fun _ hx => hx⟩
  | some subs =>
    obtain ⟨b1, h1, d1, m1⟩ := upd82sub_ok hls hci hri b RAI_OPTION_LINK_SELECTION subs
    obtain ⟨b2, h2, d2, m2⟩ := upd82sub_ok hls hci hri b1 RAI_OPTION_AGENT_CIRCUIT_ID subs
    obtain ⟨b3, h3, d3, m3⟩ := upd82sub_ok hls hci hri b2 RAI_OPTION_REMOTE_ID subs
    refine ⟨b3, [], ?_, ?_, ?_⟩
    · simp [h1, h2, h3]
    · rw [d3, d2, d1]
    · intro x hx
      exact m3 _ (m2 _ (m1 _ hx))

theorem recvStepVendorClass_ok {env : DiscoveryEnv}
    (hvc : ∀ s, env.vendorClassResult s = DBResult.Success)
    (q : Query) (b : Builder) :
    ∃ (b' : Builder) (l : List LogEvent),
      recvStepVendorClass q env b = (b', DBResult.Success, l) ∧
      b'.desired_address = b.desired_address ∧
      (∀ x ∈ b.calls, x ∈ b'.calls) := by
  unfold recvStepVendorClass
  cases hopt : (getQOption q DHO_VENDOR_CLASS_IDENTIFIER).bind castString with
  | none => exact ⟨b, [LogEvent.missingOption DHO_VENDOR_CLASS_IDENTIFIER], rfl, rfl,
      fun _ hx => hx⟩
  | some s =>
    refine ⟨{ b with vendor_class := some s, calls := b.calls ++ [DiscoveryCall.setVendorClass s] }, [], ?_, rfl, ?_⟩
    · simp [discovery_set_vendor_class, hvc]
    · intro x hx
      exact List.mem_append.mpr (Or.inl hx)

theorem recvStepClientSystem_ok {env : DiscoveryEnv}
    (hcs : ∀ v, env.clientSystemResult v = DBResult.Success)
    (q : Query) (b : Builder) :
    ∃ (b' : Builder) (l : List LogEvent),
      recvStepClientSystem q env b = (b', DBResult.Success, l) ∧
      b'.desired_address = b.desired_address ∧
      (∀ x ∈ b.calls, x ∈ b'.calls) := by
  unfold recvStepClientSystem
  cases hopt : (getQOption q DHO_SYSTEM).bind castU16 with
  | none => exact ⟨b, [LogEvent.missingOption DHO_SYSTEM], rfl, rfl, fun _ hx => hx⟩
  | some v =>
    refine ⟨{ b with client_system := some v, calls := b.calls ++ [DiscoveryCall.setClientSystem v] }, [], ?_, rfl, ?_⟩
    · simp [discovery_set_client_system, hcs]
    · intro x hx
      exact List.mem_append.mpr (Or.inl hx)

theorem set_relay_ok {env : DiscoveryEnv}
    (h : ∀ a, env.relayResult a = DBResult.Success) (b : Builder) (a : Nat) :
    discovery_set_relay env b a =
      ({ b with relay := some a, calls := b.calls ++ [DiscoveryCall.setRelay a] },
        DBResult.Success) := by
  simp [discovery_set_relay, h a]

theorem set_mac_ok {env : DiscoveryEnv}
    (h : ∀ l, env.macResult l = DBResult.Success) (b : Builder) (l : List Nat) :
    discovery_set_mac_address env b l =
      ({ b with mac := some l, calls := b.calls ++ [DiscoveryCall.setMacAddress l] },
        DBResult.Success) := by
  simp [discovery_set_mac_address, h l]

theorem fetch_builder (env : DiscoveryEnv) (b : Builder) :
    (discovery_fetch_machine env b).1 =
      { b with calls := b.calls ++ [DiscoveryCall.fetchMachine] } := by
  unfold discovery_fetch_machine
  split <;> rfl

theorem recvStepDesiredAddr_wrong_len (q : Query) (env : DiscoveryEnv) (b : Builder)
    (bytes : List Nat)
    (h50 : getQOption q DHO_DHCP_REQUESTED_ADDRESS = some (QVal.raw bytes))
    (hlen : bytes.length ≠ 4) :
    recvStepDesiredAddr q env b = (b, [LogEvent.desiredAddrLenWrong bytes.length]) := by
  simp [recvStepDesiredAddr, h50, qvalData, hlen]

/-! ## Claims -/

/-- C1: for every send phase that completes on a well-formed response
packet, the resulting response contains at most one option per recognized
option code, and the option at the vendor-encapsulated code is exactly the
freshly built vendor option (so no second instance of that code exists).
A response already holding a vendor-encapsulated option makes the final
`addOption` fail, so such a send phase does not complete. -/
theorem c1_send_phase_at_most_one_option_per_code
    (resp : Pkt) (m : Machine) (r : Pkt) (drop : Bool)
    (hwf : WellFormed resp) (hdone : sendPhase resp m = Except.ok (r, drop)) :
    (∀ c ∈ recognizedCodes, countCode r c ≤ 1) ∧
    r.options.filter (fun o => o.code == DHO_VENDOR_ENCAPSULATED_OPTIONS) =
      [⟨DHO_VENDOR_ENCAPSULATED_OPTIONS, OptVal.vendor (buildVendorSubs m)⟩] := by
  unfold sendPhase at hdone
  split at hdone
  · exact absurd hdone (by simp)
  · rename_i yi hyi
    split at hdone
    · exact absurd hdone (by simp)
    · rename_i si hsi
      split at hdone
      · exact absurd hdone (by simp)
      · rename_i r' hvend
        simp only [Except.ok.injEq, Prod.mk.injEq] at hdone
        obtain ⟨rfl, rfl⟩ := hdone
        unfold set_vendor_options pkt4AddOption at hvend
        split at hvend
        · exact absurd hvend (by simp)
        · rename_i heq43
          simp only [Except.ok.injEq] at hvend
          subst hvend
          have hwfP : WellFormed
              { (set_options { resp with yiaddr := yi } m).1 with siaddr := si } := by
            intro c
            show countCode (set_options { resp with yiaddr := yi } m).1 c ≤ 1
            have hw : WellFormed (set_options { resp with yiaddr := yi } m).1 := by
              unfold set_options
              exact foldl_updStep_wf _ _ (fun c' => hwf c')
            exact hw c
          have hnil43 :
              ({ (set_options { resp with yiaddr := yi } m).1 with
                siaddr := si } : Pkt).options.filter
                (fun o => o.code == DHO_VENDOR_ENCAPSULATED_OPTIONS) = [] :=
            (getOption_none_iff _ _).mp heq43
          refine ⟨?_, filter_append_singleton_self hnil43⟩
          intro c _
          show (List.filter (fun o => o.code == c)
            (({ (set_options { resp with yiaddr := yi } m).1 with
              siaddr := si } : Pkt).options ++
              [⟨DHO_VENDOR_ENCAPSULATED_OPTIONS,
                OptVal.vendor (buildVendorSubs m)⟩])).length ≤ 1
          rw [List.filter_append]
          by_cases hc : c = DHO_VENDOR_ENCAPSULATED_OPTIONS
          · subst hc
            rw [hnil43]
            simp
          · have hne : ((⟨DHO_VENDOR_ENCAPSULATED_OPTIONS,
                OptVal.vendor (buildVendorSubs m)⟩ : Opt).code == c) = false := by
              simp only [beq_eq_false_iff_ne]
              exact fun e => hc e.symm
            simp only [List.filter_cons, hne, Bool.false_eq_true, if_false,
              List.filter_nil, List.append_nil]
            exact hwfP c

/-- C1 witness: a completed send phase on an empty response packet. -/
theorem c1_witness :
    WellFormed pktEmpty ∧
    sendPhase pktEmpty mGood = Except.ok (rGood, false) ∧
    countCode rGood DHO_VENDOR_ENCAPSULATED_OPTIONS ≤ 1 ∧
    rGood.options.filter (fun o => o.code == DHO_VENDOR_ENCAPSULATED_OPTIONS) =
      [⟨DHO_VENDOR_ENCAPSULATED_OPTIONS, OptVal.vendor (buildVendorSubs mGood)⟩] :=
  ⟨pktEmpty_wf, rfl,
    (c1_send_phase_at_most_one_option_per_code pktEmpty mGood rGood false
      pktEmpty_wf rfl).1 DHO_VENDOR_ENCAPSULATED_OPTIONS (by decide),
    (c1_send_phase_at_most_one_option_per_code pktEmpty mGood rGood false
      pktEmpty_wf rfl).2⟩

/-- C2: for every well-formed response packet, every option code handled by
the synthesizer and every pair of parameters whose second value encodes
successfully, overwriting twice leaves exactly one option for that code,
holding the second value. -/
theorem c2_overwrite_twice_exactly_one
    (resp : Pkt) (c : Nat) (p1 p2 : Param) (v : OptVal)
    (hwf : WellFormed resp) (_hc : c ∈ handledCodes)
    (henc : encodeParam c p2 = Except.ok v) :
    (updateOption (updateOption resp c p1).1 c p2).1.options.filter
      (fun o => o.code == c) = [⟨c, v⟩] :=
  (updateOption_ok _ c p2 v (updateOption_count_le resp c p1 (hwf c)) henc).1

/-- C2 witness: the spec's MTU instance — writing MTU 1500 and then MTU
1400 leaves exactly one interface-MTU option valued 1400. -/
theorem c2_witness :
    WellFormed pktEmpty ∧ DHO_INTERFACE_MTU ∈ handledCodes ∧
    encodeParam DHO_INTERFACE_MTU (Param.u16p 1400) = Except.ok (OptVal.u16 1400) ∧
    (updateOption (updateOption pktEmpty DHO_INTERFACE_MTU (Param.u16p 1500)).1
      DHO_INTERFACE_MTU (Param.u16p 1400)).1.options.filter
      (fun o => o.code == DHO_INTERFACE_MTU) = [⟨DHO_INTERFACE_MTU, OptVal.u16 1400⟩] :=
  ⟨pktEmpty_wf, by decide, rfl,
    c2_overwrite_twice_exactly_one pktEmpty DHO_INTERFACE_MTU
      (Param.u16p 1500) (Param.u16p 1400) (OptVal.u16 1400)
      pktEmpty_wf (by decide) rfl⟩

/-- C4 counterexample: a response holding a nameserver option, overwritten
with an unparseable address list.  The call fails (drop status), yet the
pre-existing option is gone: the option set for the code is NOT what it
was before the call. -/
theorem c4_counterexample :
    (updateOption pktNS DHO_NAME_SERVERS (Param.str "bogus")).2 = true ∧
    (updateOption pktNS DHO_NAME_SERVERS (Param.str "bogus")).1.options.filter
      (fun o => o.code == DHO_NAME_SERVERS) = [] ∧
    pktNS.options.filter (fun o => o.code == DHO_NAME_SERVERS) =
      [⟨DHO_NAME_SERVERS, OptVal.addrList [167772161]⟩] := by decide

/-- C4 amended: a failing overwrite call is never half-written — after the
failure the packet holds NO option for that code (the pre-existing one was
already removed by the handler constructor's get-and-delete), every other
code's options are untouched, and the drop status is raised. -/
theorem c4_amended_failed_overwrite
    (resp : Pkt) (c : Nat) (p : Param)
    (hwf : WellFormed resp)
    (hfail : (updateOption resp c p).2 = true) :
    (updateOption resp c p).1.options.filter (fun o => o.code == c) = [] ∧
    ∀ c' : Nat, c' ≠ c →
      (updateOption resp c p).1.options.filter (fun o => o.code == c') =
        resp.options.filter (fun o => o.code == c') :=
  ⟨updateOption_fail_filter_nil resp c p (hwf c) hfail,
   fun _ hc' => updateOption_filter_ne resp c p (hwf c) hc'⟩

/-- C4 witness: the failing nameserver overwrite of the counterexample. -/
theorem c4_amended_witness :
    WellFormed pktNS ∧
    (updateOption pktNS DHO_NAME_SERVERS (Param.str "bogus")).2 = true ∧
    ((updateOption pktNS DHO_NAME_SERVERS (Param.str "bogus")).1.options.filter
      (fun o => o.code == DHO_NAME_SERVERS) = [] ∧
    ∀ c' : Nat, c' ≠ DHO_NAME_SERVERS →
      (updateOption pktNS DHO_NAME_SERVERS (Param.str "bogus")).1.options.filter
        (fun o => o.code == c') = pktNS.options.filter (fun o => o.code == c')) :=
  ⟨pktNS_wf, by decide,
    c4_amended_failed_overwrite pktNS DHO_NAME_SERVERS (Param.str "bogus")
      pktNS_wf (by decide)⟩

/-- C5 counterexample: a machine record whose router value is the
comma-separated pair `10.0.0.1,10.0.0.2`.  The claim requires the router
option to become an AddressList holding both addresses; instead the single
`IOAddress` parse of the whole string fails, no router option is written
at all, and the request is flagged for drop. -/
theorem c5_counterexample :
    (set_options pktEmpty mMultiRouter).1.options.filter
      (fun o => o.code == DHO_ROUTERS) ≠
      [⟨DHO_ROUTERS, OptVal.addrList [167772161, 167772162]⟩] ∧
    (set_options pktEmpty mMultiRouter).1.options.filter
      (fun o => o.code == DHO_ROUTERS) = [] ∧
    (set_options pktEmpty mMultiRouter).2 = true ∧
    parseIPv4 "10.0.0.1" = some 167772161 ∧ parseIPv4 "10.0.0.2" = some 167772162 := by
  decide

/-- C5 amended: the nameserver and NTP-server lists are parsed as
comma-separated multi-address inputs into AddressList options (one 4-byte
address per element); the router value is parsed as a single address and
written as a one-element AddressList — a multi-element router input makes
the write fail instead. -/
theorem c5_amended_address_list_options
    (resp : Pkt) (m : Machine) (a : Nat) (ns ntp : List Nat)
    (hwf : WellFormed resp)
    (hr : parseIPv4E m.interface_router = Except.ok a)
    (hns : getAddressesE m.nameservers = Except.ok ns)
    (hntp : getAddressesE m.ntpservers = Except.ok ntp) :
    (set_options resp m).1.options.filter (fun o => o.code == DHO_ROUTERS) =
      [⟨DHO_ROUTERS, OptVal.addrList [a]⟩] ∧
    (set_options resp m).1.options.filter (fun o => o.code == DHO_NAME_SERVERS) =
      [⟨DHO_NAME_SERVERS, OptVal.addrList ns⟩] ∧
    (set_options resp m).1.options.filter (fun o => o.code == DHO_NTP_SERVERS) =
      [⟨DHO_NTP_SERVERS, OptVal.addrList ntp⟩] := by
  obtain ⟨h3, h5, _, h42⟩ := set_options_address_options resp m a ns ntp hwf hr hns hntp
  exact ⟨h3, h5, h42⟩

/-- C5 witness: `mGood` has a single router address, a two-element
nameserver list and a one-element NTP list. -/
theorem c5_amended_witness :
    WellFormed pktEmpty ∧
    parseIPv4E mGood.interface_router = Except.ok 167772161 ∧
    getAddressesE mGood.nameservers = Except.ok [16843009, 134744072] ∧
    getAddressesE mGood.ntpservers = Except.ok [33686018] ∧
    ((set_options pktEmpty mGood).1.options.filter (fun o => o.code == DHO_ROUTERS) =
      [⟨DHO_ROUTERS, OptVal.addrList [167772161]⟩] ∧
    (set_options pktEmpty mGood).1.options.filter (fun o => o.code == DHO_NAME_SERVERS) =
      [⟨DHO_NAME_SERVERS, OptVal.addrList [16843009, 134744072]⟩] ∧
    (set_options pktEmpty mGood).1.options.filter (fun o => o.code == DHO_NTP_SERVERS) =
      [⟨DHO_NTP_SERVERS, OptVal.addrList [33686018]⟩]) :=
  ⟨pktEmpty_wf, rfl, rfl, rfl,
    c5_amended_address_list_options pktEmpty mGood 167772161
      [16843009, 134744072] [33686018] pktEmpty_wf rfl rfl rfl⟩

/-- C9: the vendor-encapsulated option is built with exactly the fixed
32-bit sub-option 6 valued 0x8, plus the UUID string sub-option 70 exactly
when the machine UUID is non-empty, and nothing else. -/
theorem c9_vendor_subentries (m : Machine) :
    buildVendorSubs m =
      (if m.uuid = "" then [(6, SubVal.u32 8)]
       else [(6, SubVal.u32 8), (70, SubVal.str m.uuid)]) := by
  by_cases h : m.uuid = "" <;> simp [buildVendorSubs, h]

/-- C10: the send phase writes the record's nameserver string to both the
name-servers option (code 5) and the domain-name-servers option (code 6),
and both options carry the same address list. -/
theorem c10_nameservers_written_to_both_codes
    (resp : Pkt) (m : Machine) (a : Nat) (ns ntp : List Nat)
    (hwf : WellFormed resp)
    (hr : parseIPv4E m.interface_router = Except.ok a)
    (hns : getAddressesE m.nameservers = Except.ok ns)
    (hntp : getAddressesE m.ntpservers = Except.ok ntp) :
    (set_options resp m).1.options.filter (fun o => o.code == DHO_NAME_SERVERS) =
      [⟨DHO_NAME_SERVERS, OptVal.addrList ns⟩] ∧
    (set_options resp m).1.options.filter (fun o => o.code == DHO_DOMAIN_NAME_SERVERS) =
      [⟨DHO_DOMAIN_NAME_SERVERS, OptVal.addrList ns⟩] := by
  obtain ⟨_, h5, h6, _⟩ := set_options_address_options resp m a ns ntp hwf hr hns hntp
  exact ⟨h5, h6⟩

/-- C10 witness: with `mGood`, codes 5 and 6 both hold the parsed
nameserver list. -/
theorem c10_witness :
    WellFormed pktEmpty ∧
    parseIPv4E mGood.interface_router = Except.ok 167772161 ∧
    getAddressesE mGood.nameservers = Except.ok [16843009, 134744072] ∧
    getAddressesE mGood.ntpservers = Except.ok [33686018] ∧
    ((set_options pktEmpty mGood).1.options.filter (fun o => o.code == DHO_NAME_SERVERS) =
      [⟨DHO_NAME_SERVERS, OptVal.addrList [16843009, 134744072]⟩] ∧
    (set_options pktEmpty mGood).1.options.filter
      (fun o => o.code == DHO_DOMAIN_NAME_SERVERS) =
      [⟨DHO_DOMAIN_NAME_SERVERS, OptVal.addrList [16843009, 134744072]⟩]) :=
  ⟨pktEmpty_wf, rfl, rfl, rfl,
    c10_nameservers_written_to_both_codes pktEmpty mGood 167772161
      [16843009, 134744072] [33686018] pktEmpty_wf rfl rfl rfl⟩

/-- C3: the receive phase at a concrete relayed packet whose option 50 is
well-formed, in an environment where the desired-address setter fails and
everything else succeeds.  The failure of `discovery_set_desired_address`
(whose return value pkt4_receive discards) does NOT short-circuit: the
client-system, relay and MAC setters and the resolve call are all still
invoked, and the request completes successfully instead of being dropped
with that failure. -/
theorem c3_desired_setter_failure_is_ignored :
    envDesiredFails.desiredAddressResult "10.1.2.3" =
      DBResult.Failure "DesiredAddressRejected" ∧
    DiscoveryCall.setDesiredAddress "10.1.2.3" ∈
      (receivePhase qFull envDesiredFails).builder.calls ∧
    DiscoveryCall.setClientSystem 7 ∈ (receivePhase qFull envDesiredFails).builder.calls ∧
    DiscoveryCall.setRelay 167772161 ∈ (receivePhase qFull envDesiredFails).builder.calls ∧
    DiscoveryCall.fetchMachine ∈ (receivePhase qFull envDesiredFails).builder.calls ∧
    (receivePhase qFull envDesiredFails).outcome = RecvOutcome.success mGood := by
  decide

/-- C6: for every Relay Agent Information option carrying a link-selection
suboption, a 4-byte payload sets the discovery query's link-selection
field to that address (when the setter accepts it) and reports success,
while any other payload length leaves the builder untouched and still
reports success. -/
theorem c6_link_selection_payload_length (env : DiscoveryEnv) (b : Builder)
    (subs : List (Nat × List Nat)) (payload : List Nat)
    (hfind : lookupSub subs RAI_OPTION_LINK_SELECTION = some payload) :
    (payload.length = 4 →
      env.linkSelectResult (addrOfBytes payload) = DBResult.Success →
      (update_discovery_parameters_option82 env b RAI_OPTION_LINK_SELECTION
        subs).1.link_selection = some (addrOfBytes payload) ∧
      (update_discovery_parameters_option82 env b RAI_OPTION_LINK_SELECTION
        subs).2 = DBResult.Success) ∧
    (payload.length ≠ 4 →
      update_discovery_parameters_option82 env b RAI_OPTION_LINK_SELECTION subs =
        (b, DBResult.Success)) := by
  constructor
  · intro hlen hres
    constructor <;>
      simp [update_discovery_parameters_option82, hfind, hlen,
        discovery_set_link_select, hres]
  · intro hlen
    simp [update_discovery_parameters_option82, hfind, hlen]

/-- C6 witness: the spec's `10.0.0.5` link-selection suboption, and the
same suboption truncated to 3 bytes. -/
theorem c6_witness :
    (lookupSub [(5, [10, 0, 0, 5])] RAI_OPTION_LINK_SELECTION = some [10, 0, 0, 5] ∧
      (([10, 0, 0, 5] : List Nat).length = 4 →
        (envAll (some mGood)).linkSelectResult (addrOfBytes [10, 0, 0, 5]) =
          DBResult.Success →
        (update_discovery_parameters_option82 (envAll (some mGood)) bEmpty
          RAI_OPTION_LINK_SELECTION [(5, [10, 0, 0, 5])]).1.link_selection =
          some (addrOfBytes [10, 0, 0, 5]) ∧
        (update_discovery_parameters_option82 (envAll (some mGood)) bEmpty
          RAI_OPTION_LINK_SELECTION [(5, [10, 0, 0, 5])]).2 = DBResult.Success)) ∧
    (lookupSub [(5, [10, 0, 5])] RAI_OPTION_LINK_SELECTION = some [10, 0, 5] ∧
      (([10, 0, 5] : List Nat).length ≠ 4 →
        update_discovery_parameters_option82 (envAll (some mGood)) bEmpty
          RAI_OPTION_LINK_SELECTION [(5, [10, 0, 5])] = (bEmpty, DBResult.Success))) :=
  ⟨⟨by decide,
    (c6_link_selection_payload_length (envAll (some mGood)) bEmpty
      [(5, [10, 0, 0, 5])] [10, 0, 0, 5] (by decide)).1⟩,
   ⟨by decide,
    (c6_link_selection_payload_length (envAll (some mGood)) bEmpty
      [(5, [10, 0, 5])] [10, 0, 5] (by decide)).2⟩⟩

/-- C7: a relayed query whose requested-address option (code 50) has a
payload of the wrong length leaves the desired-address field unset, logs a
diagnostic, and still reaches the relay setter and the resolve call — the
wrong length is not fatal to the request. -/
theorem c7_wrong_length_desired_address_not_fatal (q : Query) (env : DiscoveryEnv)
    (bytes : List Nat)
    (hrel : pkt4IsRelayed q = true)
    (h50 : getQOption q DHO_DHCP_REQUESTED_ADDRESS = some (QVal.raw bytes))
    (hlen : bytes.length ≠ 4) (hs : SettersSucceed env) :
    (receivePhase q env).builder.desired_address = none ∧
    LogEvent.desiredAddrLenWrong bytes.length ∈ (receivePhase q env).logs ∧
    DiscoveryCall.setRelay q.giaddr ∈ (receivePhase q env).builder.calls ∧
    DiscoveryCall.fetchMachine ∈ (receivePhase q env).builder.calls := by
  obtain ⟨hls, hci, hri, hvc, hcs, hrl, hmc⟩ := hs
  obtain ⟨b1, l1, h1, d1, m1⟩ := recvStepAgentOptions_ok hls hci hri q {}
  obtain ⟨b2, l2, h2, d2, m2⟩ := recvStepVendorClass_ok hvc q b1
  have h3 := recvStepDesiredAddr_wrong_len q env b2 bytes h50 hlen
  obtain ⟨b4, l4, h4, d4, m4⟩ := recvStepClientSystem_ok hcs q b2
  cases hf : env.fetchResult with
  | Success =>
    cases hm : env.fetchedMachine with
    | none =>
      simp [receivePhase, hrel, h1, h2, h3, h4, set_relay_ok hrl, set_mac_ok hmc,
        discovery_fetch_machine, hf, hm, d4, d2, d1, List.mem_append]
    | some mm =>
      simp [receivePhase, hrel, h1, h2, h3, h4, set_relay_ok hrl, set_mac_ok hmc,
        discovery_fetch_machine, hf, hm, d4, d2, d1, List.mem_append]
  | Failure msg =>
    simp [receivePhase, hrel, h1, h2, h3, h4, set_relay_ok hrl, set_mac_ok hmc,
      discovery_fetch_machine, hf, d4, d2, d1, List.mem_append]

/-- C7 witness: `qShortAddr` carries a 3-byte requested-address payload. -/
theorem c7_witness :
    pkt4IsRelayed qShortAddr = true ∧
    getQOption qShortAddr DHO_DHCP_REQUESTED_ADDRESS = some (QVal.raw [10, 1, 2]) ∧
    (([10, 1, 2] : List Nat).length ≠ 4) ∧
    ((receivePhase qShortAddr (envAll (some mGood))).builder.desired_address = none ∧
      LogEvent.desiredAddrLenWrong ([10, 1, 2] : List Nat).length ∈
        (receivePhase qShortAddr (envAll (some mGood))).logs ∧
      DiscoveryCall.setRelay qShortAddr.giaddr ∈
        (receivePhase qShortAddr (envAll (some mGood))).builder.calls ∧
      DiscoveryCall.fetchMachine ∈
        (receivePhase qShortAddr (envAll (some mGood))).builder.calls) :=
  ⟨by decide, by decide, by decide,
    c7_wrong_length_desired_address_not_fatal qShortAddr (envAll (some mGood))
      [10, 1, 2] (by decide) (by decide) (by decide)
      ⟨fun _ => rfl, fun _ => rfl, fun _ => rfl, fun _ => rfl, fun _ => rfl,
        fun _ => rfl, fun _ => rfl⟩⟩

/-- C8: a query whose giaddr is zero never invokes any discovery-builder
call or the resolve call, and the receive phase terminates dropped with
reason NonRelayedPacket. -/
theorem c8_non_relayed_never_reaches_discovery (q : Query) (env : DiscoveryEnv)
    (h : q.giaddr = 0) :
    (receivePhase q env).outcome = RecvOutcome.dropped "NonRelayedPacket" ∧
    (receivePhase q env).builder.calls = [] := by
  have hrel : pkt4IsRelayed q = false := by simp [pkt4IsRelayed, h]
  constructor <;> simp [receivePhase, hrel]

/-- C8 witness: the query with giaddr 0. -/
theorem c8_witness :
    qZeroGiaddr.giaddr = 0 ∧
    (receivePhase qZeroGiaddr (envAll (some mGood))).outcome =
      RecvOutcome.dropped "NonRelayedPacket" ∧
    (receivePhase qZeroGiaddr (envAll (some mGood))).builder.calls = [] :=
  ⟨rfl,
    (c8_non_relayed_never_reaches_discovery qZeroGiaddr (envAll (some mGood)) rfl).1,
    (c8_non_relayed_never_reaches_discovery qZeroGiaddr (envAll (some mGood)) rfl).2⟩

end Carbide
